import Mathlib

set_option autoImplicit false

/-!
Verification development for the SA-MP server monitor
(`samp_server_monitor.py`).

The Python source is shallowly embedded as Lean definitions:

* Python dicts with optional keys become structures with `Option` fields,
  and `dict.get(key, default)` becomes `Option.getD`;
* the sub-query methods of `SAMPServerQuery` (`ping`, `get_player_count`,
  `get_server_info`) each catch `SAMPQueryException` internally and return
  `None`, so at the `check_server` boundary they are pure values of type
  `Option _` and `check_server` is a total function of those outcomes;
* float division is embedded as exact division on `ℚ`;
* the side effect of each `DiscordNotifier.send_alert` call inside
  `handle_server_status_change` is recorded as an `AlertEvent` in an output
  list, in the order the calls occur in the source;
* the thread lifecycle (`start_monitoring` / `stop_monitoring` /
  `monitor_loop`) is embedded as a small transition system over an explicit
  monitor state with a phase marker for the loop and a counter of spawned
  loop threads and of executed probes.
-/

/-- Per-server configuration entry, as read from the `servers` array of the
configuration JSON (see `_get_default_config`, lines 310-324 of the source).
`max_players` is optional because `check_server` reads it with
`server_config.get('max_players', 100)`; the remaining keys are read with
bracket access or appear in the default and sample configurations. -/
structure ServerConfig where
  name : String
  host : String
  port : Nat
  max_players : Option Nat
  alert_on_offline : Bool
  alert_on_high_load : Bool
  high_load_threshold : ℚ
deriving DecidableEq, Repr

/-- Outcome of the three sub-queries issued by `check_server` (source lines
343-345).  Each of `SAMPServerQuery.ping`, `get_player_count` and
`get_server_info` catches `SAMPQueryException` and returns `None` on any
failure (source lines 115-116, 134-135, 150-151), so at this boundary each
is an `Option`: `none` models a failed sub-query (timeout or transport
error), `some _` a reply.  `get_server_info` returns a dict whose payload
`check_server` never reads, so its success is modelled as `Option Unit`. -/
structure QueryOutcome where
  ping : Option Nat
  player_count : Option Nat
  info : Option Unit
deriving DecidableEq, Repr

/-- A server status dictionary as built by `check_server` and stored in
`self.server_states`.  Optional fields model keys that only some branch of
the source writes: the online branch (lines 347-356) writes `ping`,
`player_count` and `max_players` and no `error`; the offline branch
(lines 361-368) writes `error` and none of the former. -/
structure Status where
  name : String
  host : String
  port : Nat
  online : Option Bool
  ping : Option Nat
  player_count : Option Nat
  max_players : Option Nat
  error : Option String
deriving DecidableEq, Repr

/-- Embedding of `ServerMonitor.check_server` (source lines 326-370) as a
function of the configuration and the three sub-query outcomes.  In the
source the `except SAMPQueryException` branch (lines 360-370) is
unreachable: every sub-query method already catches `SAMPQueryException`
and returns `None`, and nothing else in the `try` block raises it, so the
function always returns the online-branch dictionary.  The Python
expression `player_count or 0` maps `None` (and `0`) to `0`, i.e.
`Option.getD _ 0` on naturals. -/
def check_server (server_config : ServerConfig) (q : QueryOutcome) : Status :=
  { name := server_config.name
    host := server_config.host
    port := server_config.port
    online := some true
    ping := q.ping
    player_count := some (q.player_count.getD 0)
    max_players := some (server_config.max_players.getD 100)
    error := none }

/-- The status dictionary built by the `except SAMPQueryException` branch of
`check_server` (source lines 361-368).  In the source this branch is dead
code (see `check_server`), but it is the only place an offline status is
described: `online` is `False`, `error` carries the exception text, and no
`ping`, `player_count` or `max_players` key is written. -/
def check_server_offline (server_config : ServerConfig) (err : String) : Status :=
  { name := server_config.name
    host := server_config.host
    port := server_config.port
    online := some false
    ping := none
    player_count := none
    max_players := none
    error := some err }

/-- The single-server default configuration returned by
`ServerMonitor._get_default_config` (source lines 302-324). -/
def default_config_server : ServerConfig :=
  { name := "Main Server"
    host := "127.0.0.1"
    port := 7777
    max_players := some 500
    alert_on_offline := true
    alert_on_high_load := true
    high_load_threshold := 8/10 }

/-- The three kinds of alert that `handle_server_status_change` can send via
`DiscordNotifier.send_alert`: the offline alert (source lines 388-392), the
back-online alert (lines 397-401) and the high-load alert (lines 416-432).
No other alert kind exists in the handler; in particular there is no
constructor for a load-normalised or de-crossing alert. -/
inductive AlertEvent where
  | wentOffline
  | wentOnline
  | highLoad
deriving DecidableEq, Repr

/-- Load of a status dictionary as computed in `handle_server_status_change`:
`player_count / max_players if max_players > 0 else 0`, with
`dict.get('player_count', 0)` and `dict.get('max_players', 100)` defaults
(source lines 405-407 for the new status and 410-411 for the old one, which
use the same expression). -/
def load_of (s : Status) : ℚ :=
  if s.max_players.getD 100 > 0 then
    (s.player_count.getD 0 : ℚ) / (s.max_players.getD 100 : ℚ)
  else 0

/-- Embedding of `ServerMonitor.handle_server_status_change` (source lines
372-432), returning the list of alerts sent, in source order.  The guards
keep the per-call-site defaults of the Python `dict.get` calls: line 386
uses `old.get('online', True)` and `new.get('online', False)`, line 395
uses `old.get('online', False)` and `new.get('online', True)`, line 404
uses `new.get('online', False)`.  The threshold is the literal `0.8` of
source line 409. -/
def handle_server_status_change (server_name : String) (new_status : Status)
    (old_status : Option Status) : List AlertEvent :=
  match old_status with
  | none => []
  | some old =>
    let transition_events : List AlertEvent :=
      if (old.online.getD true) && !(new_status.online.getD false) then
        [AlertEvent.wentOffline]
      else if !(old.online.getD false) && (new_status.online.getD true) then
        [AlertEvent.wentOnline]
      else []
    let load_events : List AlertEvent :=
      if new_status.online.getD false then
        let load := load_of new_status
        let threshold : ℚ := 8/10
        let old_load := load_of old
        if load ≥ threshold ∧ old_load < threshold then [AlertEvent.highLoad]
        else []
      else []
    transition_events ++ load_events

/-- One per-server step of the body of `ServerMonitor.monitor_loop` (source
lines 444-457), restricted to its alert output: probe the server
(`check_server`), then diff the fresh status against the stored one
(`handle_server_status_change`).  The sub-query outcomes are a parameter
since they depend on the network. -/
def monitor_cycle_events (server_config : ServerConfig) (q : QueryOutcome)
    (old_status : Option Status) : List AlertEvent :=
  handle_server_status_change server_config.name (check_server server_config q) old_status

/-- Phase of the `monitor_loop` control flow (source lines 434-474):
`entry` is the assignment `self.monitoring = True` at line 439, `condCheck`
the `while self.monitoring` test at line 442, `cycle` one pass over all
configured servers (lines 444-466), `sleeping` the
`time.sleep(check_interval)` at line 470, and `exited` the fall-through
return once the `while` test fails. -/
inductive LoopPhase where
  | entry
  | condCheck
  | cycle
  | sleeping
  | exited
deriving DecidableEq, Repr

/-- State of a `ServerMonitor` instance as seen by the lifecycle methods:
the `self.monitoring` flag, the number of monitor-loop threads spawned by
`start_monitoring`, and the phase and cumulative probe count of the loop
under observation. -/
structure MonitorState where
  monitoring : Bool
  threads : Nat
  phase : LoopPhase
  probes : Nat
deriving DecidableEq, Repr

/-- Embedding of `ServerMonitor.start_monitoring` (source lines 476-486):
it unconditionally creates and starts a new `threading.Thread` running
`monitor_loop` — there is no check of `self.monitoring` or of any other
state, so each call spawns one more loop thread. -/
def start_monitoring (s : MonitorState) : MonitorState :=
  { s with threads := s.threads + 1 }

/-- Embedding of `ServerMonitor.stop_monitoring` (source lines 488-491):
it sets `self.monitoring = False` and nothing else. -/
def stop_monitoring (s : MonitorState) : MonitorState :=
  { s with monitoring := false }

/-- One control-flow step of `monitor_loop` (source lines 434-474) for a
configuration with `num_servers` servers.  A `cycle` step probes every
configured server once (`check_server` per server, line 448) and moves to
the sleep; a `sleeping` step is the sleep running to completion (the
`time.sleep` call is not interruptible — setting the flag only takes effect
at the next `while` test); a `condCheck` step reads `self.monitoring` and
either starts a cycle or falls through to the return, which executes no
further statement and raises nothing. -/
def monitor_loop_step (num_servers : Nat) (s : MonitorState) : MonitorState :=
  match s.phase with
  | LoopPhase.entry => { s with monitoring := true, phase := LoopPhase.condCheck }
  | LoopPhase.condCheck =>
      if s.monitoring then { s with phase := LoopPhase.cycle }
      else { s with phase := LoopPhase.exited }
  | LoopPhase.cycle => { s with probes := s.probes + num_servers, phase := LoopPhase.sleeping }
  | LoopPhase.sleeping => { s with phase := LoopPhase.condCheck }
  | LoopPhase.exited => s

/-- Online status with `max_players = 500` (the default configuration server)
and the given player count, as produced by `check_server` from a successful
probe. -/
def status_players (pc : Nat) : Status :=
  check_server default_config_server ⟨some 10, some pc, some ()⟩

/-- Offline status for the default configuration server carrying a timeout
error, as the source's (dead) offline branch would build it. -/
def status_timeout : Status :=
  check_server_offline default_config_server "Query timeout: 127.0.0.1:7777"

/-- Inside `handle_server_status_change`, when the new status is online, the
high-load alert fires exactly when the new load reaches `0.8` and the old
load is below `0.8`. -/
lemma highLoad_mem_iff (server_name : String) (old new_status : Status)
    (h : new_status.online = some true) :
    AlertEvent.highLoad ∈ handle_server_status_change server_name new_status (some old) ↔
      load_of new_status ≥ 8/10 ∧ load_of old < 8/10 := by
  simp only [handle_server_status_change, h, Option.getD_some, Bool.not_true,
    Bool.and_false, Bool.false_and, if_true]
  split_ifs <;> simp_all


/-- C1: the claim says a failing sub-query makes `check_server` return an
`online=false` snapshot with the triggering error recorded.  The code does
the opposite: with all three sub-queries failed (every outcome `none`),
`check_server` still returns `online = True`, no `error` key, and
`player_count` defaulted to `0` — the `except SAMPQueryException` branch is
unreachable because each sub-query method already swallows the exception. -/
theorem check_server_all_subqueries_failed_still_online :
    (check_server default_config_server ⟨none, none, none⟩).online = some true ∧
    (check_server default_config_server ⟨none, none, none⟩).error = none ∧
    (check_server default_config_server ⟨none, none, none⟩).player_count = some 0 :=
  ⟨rfl, rfl, rfl⟩

/-- C6: when no previous status is stored for the server (`old_status` is
`None`), `handle_server_status_change` returns immediately and emits no
event of any kind. -/
theorem no_old_status_no_events (server_name : String) (new_status : Status) :
    handle_server_status_change server_name new_status none = [] :=
  rfl

/-- C4: whenever the old status is online and the new one is offline, the
handler emits exactly one `WentOffline` alert and nothing else, whatever
the player counts and maxima in either status. -/
theorem went_offline_exactly_one (server_name : String) (old new_status : Status)
    (hold : old.online = some true) (hnew : new_status.online = some false) :
    handle_server_status_change server_name new_status (some old) =
      [AlertEvent.wentOffline] := by
  simp [handle_server_status_change, hold, hnew]

/-- C4 witness: a concrete online-to-offline transition produces exactly the
one `WentOffline` alert. -/
theorem went_offline_exactly_one_witness :
    (status_players 450).online = some true ∧ status_timeout.online = some false ∧
    handle_server_status_change "Main Server" status_timeout (some (status_players 450)) =
      [AlertEvent.wentOffline] :=
  ⟨rfl, rfl, went_offline_exactly_one "Main Server" (status_players 450) status_timeout rfl rfl⟩

/-- C10: the per-server toggles `alert_on_offline` and `alert_on_high_load`
are never read anywhere in the monitor: two runs of the probe-and-diff step
on configurations that differ only in those two fields emit identical alert
lists. -/
theorem alert_toggles_ignored (cfg : ServerConfig) (b1 b2 : Bool)
    (q : QueryOutcome) (old_status : Option Status) :
    monitor_cycle_events
        { cfg with alert_on_offline := b1, alert_on_high_load := b2 } q old_status =
      monitor_cycle_events cfg q old_status :=
  rfl

/-- A monitor state that is Running: the monitoring flag is set and exactly
one monitor-loop thread has been spawned; the loop is in its inter-cycle
sleep. -/
def running_state : MonitorState :=
  { monitoring := true, threads := 1, phase := LoopPhase.sleeping, probes := 0 }

/-- C8 counterexample: from a state that is already Running (the monitoring
flag is set and one loop thread exists), `start_monitoring` is not a no-op
and reports no error — it unconditionally spawns a second monitor-loop
thread. -/
theorem start_monitoring_reentrant_counterexample :
    running_state.monitoring = true ∧
    (start_monitoring running_state).threads = 2 :=
  ⟨rfl, rfl⟩

/-- C8 amended: `start_monitoring` never consults the monitoring flag or any
other state; every call spawns exactly one more monitor-loop thread and
changes nothing else, so calling it while Running begins a second
concurrent loop. -/
theorem start_monitoring_always_spawns (s : MonitorState) :
    (start_monitoring s).threads = s.threads + 1 ∧
    (start_monitoring s).monitoring = s.monitoring ∧
    (start_monitoring s).phase = s.phase ∧
    (start_monitoring s).probes = s.probes :=
  ⟨rfl, rfl, rfl, rfl⟩


/-- C2: the high-load comparison of `handle_server_status_change` uses the
hardcoded threshold `0.8` of source line 409.  First conjunct: the emitted
alerts are identical for two configurations differing only in
`high_load_threshold` (the handler never receives the configuration).
Second conjunct: the load comparison that decides the high-load alert is
against the constant `8/10`. -/
theorem high_load_threshold_hardcoded :
    (∀ (cfg : ServerConfig) (t : ℚ) (q : QueryOutcome) (old_status : Option Status),
        monitor_cycle_events { cfg with high_load_threshold := t } q old_status =
          monitor_cycle_events cfg q old_status) ∧
    (∀ (server_name : String) (old new_status : Status),
        new_status.online = some true →
          (AlertEvent.highLoad ∈
              handle_server_status_change server_name new_status (some old) ↔
            load_of new_status ≥ 8/10 ∧ load_of old < 8/10)) :=
  ⟨fun _ _ _ _ => rfl, highLoad_mem_iff⟩

/-- C2 witness: the threshold characterisation instantiated at a concrete
online pair (new load `450/500 = 0.9`, old load `100/500 = 0.2`). -/
theorem high_load_threshold_hardcoded_witness :
    (status_players 450).online = some true ∧
    (AlertEvent.highLoad ∈
        handle_server_status_change "Main Server" (status_players 450)
          (some (status_players 100)) ↔
      load_of (status_players 450) ≥ 8/10 ∧ load_of (status_players 100) < 8/10) :=
  ⟨rfl, high_load_threshold_hardcoded.2 "Main Server" (status_players 100)
    (status_players 450) rfl⟩

/-- C3: the high-load alert is rising-edge only.  First conjunct: for an
online new status, `HighLoad` is emitted exactly when the new load reaches
`0.8` and the old load was below it.  Second conjunct: a de-crossing pair
(old load `0.9`, new load `0.5`, both online) emits zero events; no
load-normalised alert kind exists in `AlertEvent` at all. -/
theorem high_load_rising_edge_only :
    (∀ (server_name : String) (old new_status : Status),
        new_status.online = some true →
          (AlertEvent.highLoad ∈
              handle_server_status_change server_name new_status (some old) ↔
            load_of new_status ≥ 8/10 ∧ load_of old < 8/10)) ∧
    handle_server_status_change "Main Server" (status_players 250)
        (some (status_players 450)) = [] :=
  ⟨highLoad_mem_iff, by
    norm_num [handle_server_status_change, status_players, check_server,
      default_config_server, load_of]⟩

/-- C3 witness: the rising-edge characterisation instantiated at a concrete
online pair (new load `420/500 = 0.84`, old load `100/500 = 0.2`). -/
theorem high_load_rising_edge_only_witness :
    (status_players 420).online = some true ∧
    (AlertEvent.highLoad ∈
        handle_server_status_change "Main Server" (status_players 420)
          (some (status_players 100)) ↔
      load_of (status_players 420) ≥ 8/10 ∧ load_of (status_players 100) < 8/10) :=
  ⟨rfl, high_load_rising_edge_only.1 "Main Server" (status_players 100)
    (status_players 420) rfl⟩

/-- C5: the transition rules are independent and an offline old status
counts as load `0`: if the old status is offline (and, as the source's
offline branch guarantees, carries no `player_count` key) and the new one
is online with load at least `0.8`, the handler emits the back-online alert
and the high-load alert in the same call, in that order. -/
theorem reconnect_high_load_both_events (server_name : String)
    (old new_status : Status)
    (hold : old.online = some false) (hpc : old.player_count = none)
    (hnew : new_status.online = some true) (hload : load_of new_status ≥ 8/10) :
    handle_server_status_change server_name new_status (some old) =
      [AlertEvent.wentOnline, AlertEvent.highLoad] := by
  have hol : load_of old = 0 := by simp [load_of, hpc]
  have hcond : load_of new_status ≥ 8/10 ∧ load_of old < 8/10 :=
    ⟨hload, by rw [hol]; norm_num⟩
  simp [handle_server_status_change, hold, hnew, hcond]

/-- C5 witness: from a concrete offline-with-timeout old status to a
concrete online status at load `0.9`, both alerts fire in one call. -/
theorem reconnect_high_load_both_events_witness :
    status_timeout.online = some false ∧ status_timeout.player_count = none ∧
    (status_players 450).online = some true ∧ load_of (status_players 450) ≥ 8/10 ∧
    handle_server_status_change "Main Server" (status_players 450)
        (some status_timeout) = [AlertEvent.wentOnline, AlertEvent.highLoad] :=
  ⟨rfl, rfl, rfl,
    by norm_num [load_of, status_players, check_server, default_config_server],
    reconnect_high_load_both_events "Main Server" status_timeout (status_players 450)
      rfl rfl rfl
      (by norm_num [load_of, status_players, check_server, default_config_server])⟩

/-- C7: the load computation is total and a zero `max_players` yields load
`0` for both the new and the old status, so the high-load alert can never
fire off a division by zero; the handler emits no `HighLoad` event for such
a pair. -/
theorem max_players_zero_load_zero (server_name : String) (old new_status : Status)
    (hnew : new_status.max_players = some 0) (hold : old.max_players = some 0) :
    load_of new_status = 0 ∧ load_of old = 0 ∧
      AlertEvent.highLoad ∉
        handle_server_status_change server_name new_status (some old) := by
  have h1 : load_of new_status = 0 := by simp [load_of, hnew]
  have h2 : load_of old = 0 := by simp [load_of, hold]
  refine ⟨h1, h2, ?_⟩
  have hcond : ¬(load_of new_status ≥ 8/10 ∧ load_of old < 8/10) := by
    rintro ⟨ha, _⟩
    rw [h1] at ha
    linarith
  simp only [handle_server_status_change]
  split_ifs <;> simp_all

/-- Online status produced by `check_server` for a configuration whose
`max_players` entry is `0`. -/
def status_zero_max : Status :=
  check_server { default_config_server with max_players := some 0 }
    ⟨some 10, some 5, some ()⟩

/-- C7 witness: a concrete online status with `max_players = 0` has load
`0` and, diffed against itself, triggers no high-load alert. -/
theorem max_players_zero_load_zero_witness :
    status_zero_max.max_players = some 0 ∧
    (load_of status_zero_max = 0 ∧ load_of status_zero_max = 0 ∧
      AlertEvent.highLoad ∉
        handle_server_status_change "Main Server" status_zero_max (some status_zero_max)) :=
  ⟨rfl, max_players_zero_load_zero "Main Server" status_zero_max status_zero_max rfl rfl⟩

/-- C9: the stop flag is observed at the next `while` test.  If the loop is
in its inter-cycle sleep and `stop_monitoring` is called, then once the
sleep completes and the condition is re-tested the loop is in its exited
state, and however many further steps are taken the probe counter never
moves — no server is probed after the stop is observed, and the exit path
is a total function with no failure outcome. -/
theorem stop_during_sleep_exits (n k : Nat) (s : MonitorState)
    (h : s.phase = LoopPhase.sleeping) :
    (monitor_loop_step n (monitor_loop_step n (stop_monitoring s))).phase =
      LoopPhase.exited ∧
    ((monitor_loop_step n)^[k]
        (monitor_loop_step n (monitor_loop_step n (stop_monitoring s)))).probes =
      s.probes := by
  obtain ⟨mon, th, ph, pr⟩ := s
  have hph : ph = LoopPhase.sleeping := h
  subst hph
  refine ⟨rfl, ?_⟩
  have hstep : monitor_loop_step n (monitor_loop_step n
      (stop_monitoring ⟨mon, th, LoopPhase.sleeping, pr⟩)) =
      ⟨false, th, LoopPhase.exited, pr⟩ := rfl
  have hfix : monitor_loop_step n ⟨false, th, LoopPhase.exited, pr⟩ =
      ⟨false, th, LoopPhase.exited, pr⟩ := rfl
  rw [hstep, Function.iterate_fixed hfix]

/-- C9 witness: stopping the concrete Running state during its sleep with
two configured servers exits at the next condition test, and three further
steps probe nothing. -/
theorem stop_during_sleep_exits_witness :
    running_state.phase = LoopPhase.sleeping ∧
    ((monitor_loop_step 2 (monitor_loop_step 2 (stop_monitoring running_state))).phase =
        LoopPhase.exited ∧
      ((monitor_loop_step 2)^[3]
          (monitor_loop_step 2 (monitor_loop_step 2 (stop_monitoring running_state)))).probes =
        running_state.probes) :=
  ⟨rfl, stop_during_sleep_exits 2 3 running_state rfl⟩
